import Mathlib

/-!
Verification of the `google_search` orchestration engine of the
`mcp_web_search` repository.

The development shallowly embeds the Python sources under `src/`:

* `src/common/types.py`            — the data model (`SearchResult`,
  `SearchResponse`, `CommandOptions`, `FingerprintConfig`, `SavedState`);
* `src/google_search/search_executor.py` — the blocked-page predicate, the
  progressive-timeout wait policy, and the in-page extraction script;
* `src/google_search/engine.py`    — the orchestration state machine
  (`google_search`, `_perform_search_internal`,
  `_perform_search_with_browser`);
* `src/google_search/browser_manager.py` — fingerprint sidecar save/load and
  context creation;
* `src/google_search/fingerprint.py` — host-machine fingerprint derivation.

Browser I/O (navigation, selector waiting, DOM queries) is modelled by an
environment record that supplies, for each attempt, the outcomes the
automation engine would have produced (URLs reached, whether operations
succeeded, the DOM data the extraction script would see).  All control flow,
filtering, deduplication, defaulting and persistence logic is translated
directly from the source.
-/

namespace WebSearch

open scoped List

/-! ### String utilities

Python's `pattern in url` and JS's `String.prototype.includes` mean
"occurs as a contiguous substring"; JS's `startsWith` means "is a prefix".
We model both over the character lists of the strings with structurally
recursive (hence kernel-evaluable) functions. -/

/-- Substring containment: `containsSubstr s pat` holds when `pat` occurs
contiguously inside `s` (Python `pat in s`, JS `s.includes(pat)`). -/
def containsSubstr (s pat : String) : Bool :=
  (List.range (s.data.length + 1)).any (fun i => pat.data.isPrefixOf (s.data.drop i))

/-- Prefix test: JS `s.startsWith(pre)`. -/
def strStartsWith (s pre : String) : Bool :=
  pre.data.isPrefixOf s.data

/-! ### Data model — `src/common/types.py` -/

/-- The `SearchResult` dataclass (`types.py` lines 8-13). -/
structure SearchResult where
  title : String
  link : String
  snippet : String
deriving DecidableEq, Repr

/-- The `SearchResponse` dataclass (`types.py` lines 16-20). -/
structure SearchResponse where
  query : String
  results : List SearchResult
deriving DecidableEq, Repr

/-- The `CommandOptions` dataclass (`types.py` lines 23-31); every field is
`Optional` with default `None`. -/
structure CommandOptions where
  limit : Option Int := none
  timeout : Option Int := none
  state_file : Option String := none
  no_save_state : Option Bool := none
  locale : Option String := none
  headless : Option Bool := none
deriving DecidableEq, Repr

/-- The `FingerprintConfig` dataclass (`types.py` lines 45-53). -/
structure FingerprintConfig where
  device_name : String
  locale : String
  timezone_id : String
  color_scheme : String
  reduced_motion : String
  forced_colors : String
deriving DecidableEq, Repr

/-- The `SavedState` dataclass (`types.py` lines 56-60). -/
structure SavedState where
  fingerprint : Option FingerprintConfig := none
  google_domain : Option String := none
deriving DecidableEq, Repr

/-! ### Python truthiness defaulting

`engine.py` lines 58-62 apply defaults with Python's `or`:
`limit = options.limit or 10`, `timeout = options.timeout or 60000`, … .
`or` picks the default both when the option is `None` and when it is a
falsy value (`0` for ints, `""` for strings). -/

/-- Python `v or d` for an optional int field: `None` and `0` are falsy. -/
def pyOrInt (v : Option Int) (d : Int) : Int :=
  match v with
  | none => d
  | some x => if x = 0 then d else x

/-- Python `v or d` for an optional string field: `None` and `""` are falsy. -/
def pyOrStr (v : Option String) (d : String) : String :=
  match v with
  | none => d
  | some s => if s = "" then d else s

/-! ### Blocked-page predicate — `search_executor.py` lines 17-52 -/

/-- The verification-page markers, `self.sorry_patterns` in
`SearchExecutor.__init__` (`search_executor.py` lines 18-24). -/
def blocked_patterns : List String :=
  ["google.com/sorry/index", "google.com/sorry", "recaptcha", "captcha", "unusual traffic"]

/-- Model of `SearchExecutor.is_blocked_page` (`search_executor.py` lines 46-52):

    return any(pattern in url or
               (response_url and pattern in response_url)
               for pattern in self.sorry_patterns)

`response_url` is optional (`None` by default).  Python short-circuits on a
falsy `response_url`; an empty string behaves identically to `None` here
because no marker is a substring of `""`. -/
def is_blocked_page (url : String) (response_url : Option String) : Bool :=
  blocked_patterns.any (fun pattern =>
    containsSubstr url pattern ||
    (match response_url with
     | some ru => containsSubstr ru pattern
     | none => false))

/-! ### Progressive timeout policy — `search_executor.py` lines 168-228

In `wait_for_search_results`, for each candidate selector the wait loop
starts with `selector_timeout = 5000`, attempts up to `max_attempts = 3`
rounds, and after each failed round (other than the last) sets
`selector_timeout = min(selector_timeout * 2, 15000)`. -/

/-- One update of the per-round timeout (`search_executor.py` line 196). -/
def nextSelectorTimeout (t : Nat) : Nat :=
  min (t * 2) 15000

/-- The timeouts used by the successive rounds for one selector, starting
from base `t0`, for `n` attempts. -/
def selectorTimeoutSeq (t0 : Nat) : Nat → List Nat
  | 0 => []
  | n + 1 => t0 :: selectorTimeoutSeq (nextSelectorTimeout t0) n

/-! ### Fingerprint derivation — `src/google_search/fingerprint.py` -/

/-- The host environment facts `get_host_machine_config` consults:
the `LANG` environment variable, `-time.timezone // 60` (minutes east of
UTC, as computed on line 69), the local hour, and
`platform.system().lower()`. -/
structure HostEnv where
  langEnv : Option String
  timezoneOffsetMin : Int
  hour : Nat
  platformName : String
deriving DecidableEq, Repr

/-- Model of `get_host_machine_config` (`fingerprint.py` lines 53-128).

The Python computes a platform-dependent `device_name`
(Safari on macOS, Edge on Windows, Firefox on Linux) and then, on line 119,
unconditionally overwrites it with `"Desktop Chrome"`. -/
def get_host_machine_config (user_locale : Option String) (env : HostEnv) :
    FingerprintConfig :=
  -- system_locale = user_locale or os.getenv("LANG", "zh-CN")
  let system_locale := pyOrStr user_locale (env.langEnv.getD "zh-CN")
  let off := env.timezoneOffsetMin
  let timezone_id :=
    if -600 < off ∧ off ≤ -480 then "Asia/Shanghai"
    else if off ≤ -540 then "Asia/Tokyo"
    else if -480 < off ∧ off ≤ -420 then "Asia/Bangkok"
    else if -60 < off ∧ off ≤ 0 then "Europe/London"
    else if 0 < off ∧ off ≤ 60 then "Europe/Berlin"
    else if 240 < off ∧ off ≤ 300 then "America/New_York"
    else "Asia/Shanghai"
  let color_scheme := if env.hour ≥ 19 ∨ env.hour < 7 then "dark" else "light"
  let reduced_motion := "no-preference"
  let forced_colors := "none"
  let device_name :=
    if env.platformName = "darwin" then "Desktop Safari"
    else if env.platformName = "windows" then "Desktop Edge"
    else if env.platformName = "linux" then "Desktop Firefox"
    else "Desktop Chrome"
  -- fingerprint.py line 119: `device_name = "Desktop Chrome"` (unconditional)
  let device_name := "Desktop Chrome"
  { device_name := device_name
    locale := system_locale
    timezone_id := timezone_id
    color_scheme := color_scheme
    reduced_motion := reduced_motion
    forced_colors := forced_colors }

/-- The desktop device list of `get_device_config`
(`fingerprint.py` lines 134-139). -/
def desktop_device_list : List String :=
  ["Desktop Chrome", "Desktop Edge", "Desktop Firefox", "Desktop Safari"]

/-- The keys of the `playwright_devices` registry as shipped in the
fallback table of `fingerprint.py` lines 21-50 (the four desktop
profiles). -/
def playwright_device_names : List String :=
  desktop_device_list

/-- Model of `get_device_config` (`fingerprint.py` lines 131-149), reduced to the
chosen device name.  `randomChoice` stands for the index `random.choice`
picks from the four-element desktop list. -/
def get_device_config (saved_fp : Option FingerprintConfig) (randomChoice : Fin 4) :
    String :=
  match saved_fp with
  | some fp =>
    if fp.device_name ∈ playwright_device_names then fp.device_name
    else desktop_device_list.getD randomChoice.val ""
  | none => desktop_device_list.getD randomChoice.val ""

/-- The fingerprint aspect of `BrowserManager.create_context`
(`browser_manager.py` lines 68-111): when `saved_state.fingerprint` is
absent it derives a fresh profile from the host machine and writes
it back into the saved state (line 110); when present the saved profile is
reused unchanged. -/
def create_context_fingerprint_update (saved : SavedState) (locale : String)
    (host : HostEnv) : SavedState :=
  match saved.fingerprint with
  | some _ => saved
  | none => { saved with fingerprint := some (get_host_machine_config (some locale) host) }

/-! ### Fingerprint sidecar serialization — `browser_manager.py` lines 344-414

`save_browser_state` writes the dict

    { 'fingerprint': { 'device_name': …, 'locale': …, 'timezone_id': …,
                       'color_scheme': …, 'reduced_motion': …,
                       'forced_colors': … } | None,
      'google_domain': … }

as JSON; `load_saved_state` reads it back and rebuilds a `SavedState` with
`FingerprintConfig(**fingerprint_data.get('fingerprint', {}))` when the
`fingerprint` entry is truthy, falling back to an empty `SavedState` when
parsing raises.  We model the JSON document as a tree of values; `json.dump`
followed by `json.load` is the identity on such trees of strings. -/

/-- A JSON value as relevant to the sidecar file. -/
inductive JsonVal where
  | str : String → JsonVal
  | null : JsonVal
  | obj : List (String × JsonVal) → JsonVal

/-- Key lookup in a JSON object (Python `dict.get(k)`; gives `none` for a
missing key). -/
def lookupKey (fields : List (String × JsonVal)) (k : String) : Option JsonVal :=
  (fields.find? (fun p => p.1 == k)).map (fun p => p.2)

/-- The `fingerprint_data` dict built by `save_browser_state`
(`browser_manager.py` lines 363-373). -/
def save_fingerprint_data (saved : SavedState) : JsonVal :=
  .obj
    [("fingerprint",
      match saved.fingerprint with
      | some fp =>
        .obj [("device_name", .str fp.device_name),
              ("locale", .str fp.locale),
              ("timezone_id", .str fp.timezone_id),
              ("color_scheme", .str fp.color_scheme),
              ("reduced_motion", .str fp.reduced_motion),
              ("forced_colors", .str fp.forced_colors)]
      | none => .null),
     ("google_domain",
      match saved.google_domain with
      | some d => .str d
      | none => .null)]

/-- Read a string field out of a JSON object. -/
def getStrField (fields : List (String × JsonVal)) (k : String) : Option String :=
  match lookupKey fields k with
  | some (.str s) => some s
  | _ => none

/-- Keyword expansion `FingerprintConfig(**d)` (`browser_manager.py` line 405):
it succeeds only when the dict carries exactly the six dataclass
fields (an unexpected key raises `TypeError`, a missing one likewise); the
sidecar writer only ever stores strings in them. -/
def parseFingerprintConfig : JsonVal → Option FingerprintConfig
  | .obj fields =>
    if fields.all (fun p =>
        p.1 ∈ ["device_name", "locale", "timezone_id", "color_scheme",
               "reduced_motion", "forced_colors"]) then
      match getStrField fields "device_name", getStrField fields "locale",
            getStrField fields "timezone_id", getStrField fields "color_scheme",
            getStrField fields "reduced_motion", getStrField fields "forced_colors" with
      | some a, some b, some c, some d, some e, some f =>
        some ⟨a, b, c, d, e, f⟩
      | _, _, _, _, _, _ => none
    else none
  | _ => none

/-- The sidecar-reading part of `BrowserManager.load_saved_state`
(`browser_manager.py` lines 400-410): a truthy `fingerprint` entry is fed to
`FingerprintConfig(**…)`; a falsy one (`null` or absent) yields `None`; any
exception during the rebuild leaves the fresh empty `SavedState`. -/
def load_saved_state_sidecar (j : JsonVal) : SavedState :=
  match j with
  | .obj fields =>
    let domain :=
      match lookupKey fields "google_domain" with
      | some (.str d) => some d
      | _ => none
    (match (lookupKey fields "fingerprint").getD .null with
     | .null => { fingerprint := none, google_domain := domain }
     | v =>
       match parseFingerprintConfig v with
       | some fp => { fingerprint := some fp, google_domain := domain }
       | none => {})
  | _ => {}

/-! ### Result extraction — `search_executor.py` lines 230-365

`extract_search_results` evaluates an in-page script.  We model the DOM
data that script observes:

* `containers` is the concatenation, in document order, of the containers
  matched by the four `selectorSets` queries; for each container the model
  records what the script's own DOM sub-queries would derive: the trimmed
  title text (`none` when `container.querySelector(selectors.title)` is
  null), the link eventually chosen by the anchor search (empty string when
  no anchor is found), and the snippet text the snippet cascade produces.
* `anchors` is the document's anchor list in document order; the script's
  fallback query `a[href^='http']` is the filter applied below; `text` is
  the trimmed `textContent` and `ancestorSnippet` the text synthesized from
  up to three ancestors (empty when none qualifies).

The filtering, deduplication, limiting and ordering logic — everything the
claims are about — is translated line by line. -/

/-- What the extraction script derives for one container of a selector set. -/
structure Candidate where
  titleElem : Option String
  link : String
  snippet : String
deriving DecidableEq, Repr

/-- What the extraction script derives for one anchor element. -/
structure Anchor where
  href : String
  text : String
  ancestorSnippet : String
deriving DecidableEq, Repr

/-- The DOM data visible to the extraction script. -/
structure PageModel where
  containers : List Candidate
  anchors : List Anchor
deriving DecidableEq, Repr

/-- A `{ title, link, snippet }` record pushed by the extraction script. -/
structure RawResult where
  title : String
  link : String
  snippet : String
deriving DecidableEq, Repr

/-- The structural phase of the extraction script
(`search_executor.py` lines 255-324): walk the containers, skip those
without a title element, skip invalid / non-http / already-seen links, and
push `{title, link, snippet}` when both title and link are non-empty,
recording the link as seen; stop as soon as `limit` results are collected. -/
def extractStructural (limit : Int) :
    List Candidate → List RawResult → List String → List RawResult × List String
  | [], results, seen => (results, seen)
  | c :: cs, results, seen =>
    if limit ≤ (results.length : Int) then (results, seen)
    else
      match c.titleElem with
      | none => extractStructural limit cs results seen
      | some title =>
        if c.link = "" ∨ strStartsWith c.link "http" = false ∨ c.link ∈ seen then
          extractStructural limit cs results seen
        else if title = "" then
          extractStructural limit cs results seen
        else
          extractStructural limit cs (results ++ [⟨title, c.link, c.snippet⟩])
            (c.link :: seen)

/-- The fallback phase of the extraction script
(`search_executor.py` lines 327-358): walk the (http-prefixed) anchors,
skip seen links and same-site navigation links
(`google.com/`, `accounts.google`, `support.google`), skip anchors without
text, and push the anchor text / href / synthesized snippet. -/
def extractFallback (limit : Int) :
    List Anchor → List RawResult → List String → List RawResult × List String
  | [], results, seen => (results, seen)
  | a :: rest, results, seen =>
    if limit ≤ (results.length : Int) then (results, seen)
    else if a.href = "" ∨ a.href ∈ seen ∨
        containsSubstr a.href "google.com/" = true ∨
        containsSubstr a.href "accounts.google" = true ∨
        containsSubstr a.href "support.google" = true then
      extractFallback limit rest results seen
    else if a.text = "" then
      extractFallback limit rest results seen
    else
      extractFallback limit rest (results ++ [⟨a.text, a.href, a.ancestorSnippet⟩])
        (a.href :: seen)

/-- JS `Array.prototype.slice(0, n)`: for non-negative `n` keep the first
`n` elements; a negative `n` counts from the end
(`max(length + n, 0)` elements). -/
def jsSliceTo (l : List α) (n : Int) : List α :=
  if 0 ≤ n then l.take n.toNat
  else l.take (l.length - min n.natAbs l.length)

/-- The structural phase applied to a page, starting from empty results
and an empty seen-set. -/
def extractPhase1 (page : PageModel) (limit : Int) : List RawResult × List String :=
  extractStructural limit page.containers [] []

/-- The structural phase followed — only when fewer than `limit` results
were found (`search_executor.py` line 327) — by the fallback phase over
the `a[href^='http']` anchors. -/
def extractCombined (page : PageModel) (limit : Int) : List RawResult :=
  if ((extractPhase1 page limit).1.length : Int) < limit then
    (extractFallback limit
      (page.anchors.filter (fun a => strStartsWith a.href "http"))
      (extractPhase1 page limit).1 (extractPhase1 page limit).2).1
  else (extractPhase1 page limit).1

/-- Model of `SearchExecutor.extract_search_results` (`search_executor.py`
lines 230-365): both phases and the final `results.slice(0, maxResults)`
(line 360). -/
def extract_search_results (page : PageModel) (limit : Int) : List RawResult :=
  jsSliceTo (extractCombined page limit) limit

/-- Model of `SearchExecutor.convert_to_search_results` (`search_executor.py`
lines 367-372). -/
def convert_to_search_results (raw : List RawResult) : List SearchResult :=
  raw.map (fun r => { title := r.title, link := r.link, snippet := r.snippet })

/-- The records of the page in discovery order: for each container with a
title element its derived record, then for each http-prefixed anchor its
record.  The extraction output is an order-preserving selection of this
sequence. -/
def discoveredRecords (page : PageModel) : List RawResult :=
  page.containers.filterMap
    (fun c => c.titleElem.map (fun t => ({ title := t, link := c.link, snippet := c.snippet } : RawResult)))
  ++ (page.anchors.filter (fun a => strStartsWith a.href "http")).map
    (fun a => ({ title := a.text, link := a.href, snippet := a.ancestorSnippet } : RawResult))

/-! ### The orchestrator — `src/google_search/engine.py`

`google_search` applies option defaults and calls
`_perform_search_internal` in headless mode; that launches a browser and
calls `_perform_search_with_browser`, passing a restart callback that
re-runs `_perform_search_internal` with `headless=False`.
`_perform_search_with_browser` wraps its whole body in `try`/`except`; every
internal failure is caught at line 266 and converted into a degraded
`SearchResponse` carrying exactly one synthetic result (lines 304-314).

We model one attempt's interactions with the browser engine by an
`AttemptEnv` and the whole call by a map from the attempt mode
(headless = `true` / headful = `false`) to the environment that attempt
would encounter.  The model covers the engine-owned-browser path
(`existing_browser = None`, hence `browser_was_provided = False`).  The
returned `Nat` instruments the number of headless→headful relaunches
performed (invocations of the restart callback); the recursion through the
restart callback is rendered with explicit fuel, the headful attempt being
the only recursive call. -/

/-- The browser-engine outcomes one attempt observes, in program order:
`page.goto` (success plus the URLs reached, or the raised error text),
the headful `wait_for_url` verification waits, `execute_search`, the URL
after query execution, whether a result container became visible, the URL
inspected when none did, and the DOM data the extraction script would see. -/
structure AttemptEnv where
  gotoOk : Bool
  gotoErr : String
  navUrl : String
  navResponseUrl : Option String
  verifyClears : Bool
  execOk : Bool
  execErr : String
  postQueryUrl : String
  verifyClears2 : Bool
  resultsFound : Bool
  waitUrl : String
  page : PageModel
deriving DecidableEq, Repr

/-- The synthetic result of the degraded response
(`engine.py` lines 305-314). -/
def failResult (msg : String) : SearchResult :=
  { title := "搜索失败"
    link := ""
    snippet := "无法完成搜索，错误信息: " ++ msg }

/-- The stringified `playwright` `TimeoutError` raised when a headful
`wait_for_url` verification wait never clears (`engine.py` lines 196-199
and 236-239); its exact text lives outside this repository. -/
def waitForUrlTimeoutMsg : String :=
  "Timeout exceeded while waiting for event \"framenavigated\""

/-- The outcome of `SearchExecutor.wait_for_search_results`
(`search_executor.py` lines 168-228): success when some result-container
selector became visible; otherwise it inspects the current URL and raises
the verification message when `is_blocked_page` matches and the
no-results message when it does not (lines 208-222). -/
def wait_for_search_results (env : AttemptEnv) : Except String Unit :=
  if env.resultsFound then .ok ()
  else if is_blocked_page env.waitUrl none then .error "检测到人机验证页面"
  else .error "无法找到搜索结果元素"

/-- Model of `_perform_search_with_browser` (`engine.py` lines 151-314) for an
engine-owned browser.  The branches, in order:

* `page.goto` raising (line 171) is caught by the `except` of line 266 and
  becomes the degraded response;
* a blocked URL after navigation (lines 174-200): headless → close
  everything and invoke the restart callback; headful → `wait_for_url`
  until the URL leaves the blocked set, a timeout being caught by the
  `except` of line 266;
* `execute_search` raising (line 203) is caught likewise;
* a blocked URL after query execution (lines 218-240): same policy;
* `wait_for_search_results` raising (line 248) is caught likewise;
* otherwise extraction, conversion, state saving, and the successful
  response (lines 251-264). -/
def perform_search_with_browser (env : AttemptEnv) (query : String) (limit : Int)
    (headless : Bool) (restart : Unit → SearchResponse × Nat) : SearchResponse × Nat :=
  if env.gotoOk = false then
    ({ query := query, results := [failResult env.gotoErr] }, 0)
  else if is_blocked_page env.navUrl env.navResponseUrl && headless then
    ((restart ()).1, (restart ()).2 + 1)
  else if is_blocked_page env.navUrl env.navResponseUrl && !env.verifyClears then
    ({ query := query, results := [failResult waitForUrlTimeoutMsg] }, 0)
  else if env.execOk = false then
    ({ query := query, results := [failResult env.execErr] }, 0)
  else if is_blocked_page env.postQueryUrl none && headless then
    ((restart ()).1, (restart ()).2 + 1)
  else if is_blocked_page env.postQueryUrl none && !env.verifyClears2 then
    ({ query := query, results := [failResult waitForUrlTimeoutMsg] }, 0)
  else
    match wait_for_search_results env with
    | .error msg => ({ query := query, results := [failResult msg] }, 0)
    | .ok _ =>
      ({ query := query
         results := convert_to_search_results (extract_search_results env.page limit) }, 0)

/-- Model of `_perform_search_internal` (`engine.py` lines 84-148): run the attempt
for the current mode, handing it a restart callback that re-runs the whole
sequence with `headless=False`.  The callback is only ever invoked from the
headless branches, so fuel `2` suffices for the top-level call; the fuel-0
case is unreachable. -/
def perform_search_internal :
    Nat → (Bool → AttemptEnv) → String → Int → Bool → SearchResponse × Nat
  | 0, _, query, _, _ => ({ query := query, results := [] }, 0)
  | fuel + 1, env, query, limit, headless =>
    perform_search_with_browser (env headless) query limit headless
      (fun _ => perform_search_internal fuel env query limit false)

/-- Model of `google_search` (`engine.py` lines 38-81): apply the Python `or`
defaults to the options and run the internal search headless first
(`use_headless = True`, line 65).  The Python also defaults `timeout`
(60000), `state_file`, `no_save_state` and `locale` (`"zh-CN"`) the same
way; those values only parameterize the browser I/O absorbed by the
environment. -/
def google_search (env : Bool → AttemptEnv) (query : String)
    (options : CommandOptions) : SearchResponse × Nat :=
  perform_search_internal 2 env query (pyOrInt options.limit 10) true

/-! ### Derived predicates on an attempt environment

These name the conditions of the branches above; they are used to state the
claims, never to define the program. -/

/-- The navigation URL (or final response URL) is a verification page. -/
def navBlocked (e : AttemptEnv) : Bool :=
  is_blocked_page e.navUrl e.navResponseUrl

/-- The URL after query execution is a verification page. -/
def postBlocked (e : AttemptEnv) : Bool :=
  is_blocked_page e.postQueryUrl none

/-- The attempt gets past the post-navigation block check without
restarting: either the URL is clean, or (headful) the verification wait
clears. -/
def passesNav (e : AttemptEnv) (headless : Bool) : Bool :=
  !navBlocked e || (!headless && e.verifyClears)

/-- The attempt gets past the post-query block check without restarting. -/
def passesPost (e : AttemptEnv) (headless : Bool) : Bool :=
  !postBlocked e || (!headless && e.verifyClears2)

/-- Some internal step of the attempt fails (raises into the `except` of
`engine.py` line 266) rather than restarting: navigation, an unresolved
headful verification wait, query execution, or result waiting. -/
def stepFails (e : AttemptEnv) (headless : Bool) : Bool :=
  !e.gotoOk ||
  (navBlocked e && !headless && !e.verifyClears) ||
  (passesNav e headless && !e.execOk) ||
  (passesNav e headless && e.execOk && postBlocked e && !headless && !e.verifyClears2) ||
  (passesNav e headless && e.execOk && passesPost e headless && !e.resultsFound)

/-- The headless attempt invokes the restart callback: navigation succeeded
and either the navigation URL or the post-query URL is blocked. -/
def headlessRestarts (e : AttemptEnv) : Bool :=
  e.gotoOk && (navBlocked e || (!navBlocked e && e.execOk && postBlocked e))

/-! ### Concrete environments used by witnesses and counterexamples -/

/-- A well-formed results page carrying a single organic result container
and one external anchor. -/
def pageOneResult : PageModel :=
  { containers :=
      [{ titleElem := some "Rust ownership"
         link := "https://doc.rust-lang.org/book/ch04-00-understanding-ownership.html"
         snippet := "Ownership is a set of rules that govern how a Rust program manages memory." }]
    anchors :=
      [{ href := "https://example.com/rust"
         text := "Rust by example"
         ancestorSnippet := "A collection of runnable examples for the Rust language." }] }

/-- An attempt on which every step succeeds. -/
def envAllOk : AttemptEnv :=
  { gotoOk := true
    gotoErr := ""
    navUrl := "https://www.google.com"
    navResponseUrl := some "https://www.google.com"
    verifyClears := true
    execOk := true
    execErr := ""
    postQueryUrl := "https://www.google.com/search?q=rust+ownership+model"
    verifyClears2 := true
    resultsFound := true
    waitUrl := "https://www.google.com/search?q=rust+ownership+model"
    page := pageOneResult }

/-- An attempt whose initial navigation lands on a `google.com/sorry`
verification URL. -/
def envBlockedNav : AttemptEnv :=
  { envAllOk with
    navUrl := "https://www.google.com/sorry/index?continue=https://www.google.com/search"
    navResponseUrl := none }

/-- An attempt whose `page.goto` raises a navigation timeout. -/
def envGotoFails : AttemptEnv :=
  { envAllOk with
    gotoOk := false
    gotoErr := "Timeout 60000ms exceeded." }

/-- A second goto-failure environment (used by a different claim). -/
def envGotoFails2 : AttemptEnv :=
  { envAllOk with
    gotoOk := false
    gotoErr := "net::ERR_CONNECTION_RESET" }

/-- An attempt that proceeds normally until result waiting: no result
container ever appears and the URL inspected at that point is a
verification page. -/
def envBlockedDuringWait : AttemptEnv :=
  { envAllOk with
    resultsFound := false
    waitUrl := "https://www.google.com/sorry/index?continue=https://www.google.com/search" }

/-! ### Helper lemmas on the string utilities -/

/-- The function `containsSubstr` decides contiguous-substring occurrence. -/
theorem containsSubstr_eq_true_iff (s pat : String) :
    containsSubstr s pat = true ↔ pat.data <:+: s.data := by
  unfold containsSubstr
  simp only [ List.any_eq_true, List.mem_range, List.isPrefixOf_iff_prefix]
  constructor
  · rintro ⟨i, _, t, ht⟩
    exact ⟨s.data.take i, t, by rw [List.append_assoc, ht, List.take_append_drop]⟩
  · rintro ⟨pre, t, h⟩
    refine ⟨pre.length, ?_, t, ?_⟩
    · have : (pre ++ pat.data ++ t).length = s.data.length := by rw [h]
      simp only [ List.length_append] at this
      omega
    · rw [← h, List.append_assoc, List.drop_left]

/-- The function `strStartsWith` decides the prefix relation. -/
theorem strStartsWith_eq_true_iff (s pre : String) :
    strStartsWith s pre = true ↔ pre.data <+: s.data := by
  unfold strStartsWith
  exact List.isPrefixOf_iff_prefix

/-- A string with an `"http"` prefix is non-empty. -/
theorem ne_empty_of_startsWith_http (s : String) (h : strStartsWith s "http" = true) :
    s ≠ "" := by
  intro hs
  subst hs
  exact absurd h (by decide)

/-! ### Claim C2 -/

/-- Claim C2: the block predicate is pure and exact — `is_blocked_page url
response_url` is true iff the navigated URL or the (optionally given) final
response URL contains at least one configured marker substring; in
particular the sorry-page URL is blocked and a plain search URL is not. -/
theorem c2_is_blocked_page_exact :
    (∀ (url : String) (response_url : Option String),
      is_blocked_page url response_url = true ↔
        ∃ p ∈ blocked_patterns, p.data <:+: url.data ∨
          ∃ ru, response_url = some ru ∧ p.data <:+: ru.data) ∧
    is_blocked_page
      "https://www.google.com/sorry/index?continue=https://www.google.com/search%3Fq%3Dtest"
      none = true ∧
    is_blocked_page "https://www.google.com/search?q=test" none = false := by
  refine ⟨?_, by decide, by decide⟩
  intro url r
  unfold is_blocked_page
  simp only [ List.any_eq_true, Bool.or_eq_true, containsSubstr_eq_true_iff]
  constructor
  · rintro ⟨p, hp, h | h⟩
    · exact ⟨p, hp, Or.inl h⟩
    · cases r with
      | none => cases h
      | some ru =>
        exact ⟨p, hp, Or.inr ⟨ru, rfl, (containsSubstr_eq_true_iff ru p).mp h⟩⟩
  · rintro ⟨p, hp, h | ⟨ru, hru, h⟩⟩
    · exact ⟨p, hp, Or.inl h⟩
    · cases hru
      exact ⟨p, hp, Or.inr ((containsSubstr_eq_true_iff ru p).mpr h)⟩

/-- Claim C2 witness: the iff applied at a literal URL. -/
theorem c2_witness :
    is_blocked_page "https://example.org/login?captcha=1" none = true :=
  (c2_is_blocked_page_exact.1 "https://example.org/login?captcha=1" none).mpr
    ⟨"captcha", by decide, Or.inl (by decide)⟩

/-! ### Claim C6 -/

/-- Claim C6: in `wait_for_search_results` the per-round timeout sequence
for a single selector over its 3 attempts, with base 5000 ms, doubling
after each failed round and capped at 15000 ms, is exactly
`[5000, 10000, 15000]`. -/
theorem c6_progressive_timeout_sequence :
    selectorTimeoutSeq 5000 3 = [5000, 10000, 15000] ∧
    nextSelectorTimeout 5000 = 10000 ∧
    nextSelectorTimeout 10000 = 15000 ∧
    nextSelectorTimeout 15000 = 15000 := by
  refine ⟨rfl, by decide, by decide, by decide⟩

/-! ### Claim C9 -/

/-- Claim C9 (implicit): at the public search interface falsy option values
are indistinguishable from absent ones — a caller-supplied `limit` of 0 is
silently replaced by the default 10 and a `timeout` of 0 by the default
60000, because defaulting uses Python's `or`. -/
theorem c9_falsy_options_take_defaults :
    pyOrInt (some 0) 10 = 10 ∧ pyOrInt none 10 = 10 ∧
    pyOrInt (some 0) 60000 = 60000 ∧ pyOrInt none 60000 = 60000 ∧
    (∀ (n : Int), n ≠ 0 → pyOrInt (some n) 10 = n) ∧
    (∀ (env : Bool → AttemptEnv) (q : String) (o : CommandOptions),
      google_search env q { o with limit := some 0, timeout := some 0 } =
        google_search env q { o with limit := none, timeout := none }) := by
  refine ⟨rfl, rfl, rfl, rfl, ?_, ?_⟩
  · intro n hn
    simp [pyOrInt, hn]
  · intro env q o
    rfl

/-- Claim C9 witness: the defaulting equalities at concrete inputs. -/
theorem c9_witness :
    pyOrInt (some 7) 10 = 7 :=
  c9_falsy_options_take_defaults.2.2.2.2.1 7 (by decide)

/-! ### Claim C10 -/

/-- Claim C10 (implicit): for every fresh session the derived fingerprint's
`device_name` is the constant `"Desktop Chrome"` regardless of the host
operating system — the platform-based selection is unconditionally
overwritten — so the profile written back into the session state by
`create_context` always records `"Desktop Chrome"`, never the randomly
chosen device. -/
theorem c10_device_name_always_chrome :
    (∀ (ul : Option String) (host : HostEnv),
      (get_host_machine_config ul host).device_name = "Desktop Chrome") ∧
    (∀ (saved : SavedState) (locale : String) (host : HostEnv),
      saved.fingerprint = none →
        ((create_context_fingerprint_update saved locale host).fingerprint.map
          (fun fp => fp.device_name)) = some "Desktop Chrome") := by
  constructor
  · intro ul host
    rfl
  · intro saved locale host h
    cases saved with
    | mk fp dom =>
      cases h
      rfl

/-- Claim C10 witness: a fresh Linux session persists `"Desktop Chrome"`
even though the platform branch would have picked Firefox. -/
theorem c10_witness :
    ((create_context_fingerprint_update {} "en-US"
        { langEnv := some "en_US.UTF-8", timezoneOffsetMin := 0,
          hour := 12, platformName := "linux" }).fingerprint.map
      (fun fp => fp.device_name)) = some "Desktop Chrome" :=
  c10_device_name_always_chrome.2 {} "en-US"
    { langEnv := some "en_US.UTF-8", timezoneOffsetMin := 0,
      hour := 12, platformName := "linux" } rfl

/-! ### Claim C8 -/

/-- Claim C8: serializing a `FingerprintConfig` (and chosen domain) to the
sidecar JSON format with `save_browser_state` and reloading it with
`load_saved_state` yields a field-for-field equal `FingerprintConfig` and
the same domain. -/
theorem c8_fingerprint_roundtrip (fp : FingerprintConfig) (dom : Option String) :
    load_saved_state_sidecar (save_fingerprint_data { fingerprint := some fp, google_domain := dom }) =
      { fingerprint := some fp, google_domain := dom } := by
  cases dom <;> rfl

/-! ### Orchestrator lemmas -/

/-- A headful attempt never invokes its restart callback: both restart
branches are guarded by `headless`. -/
theorem headful_attempt_count (e : AttemptEnv) (q : String) (l : Int)
    (r : Unit → SearchResponse × Nat) :
    (perform_search_with_browser e q l false r).2 = 0 := by
  unfold perform_search_with_browser
  simp only [ Bool.and_false, Bool.false_eq_true, if_false]
  split
  · rfl
  split
  · rfl
  split
  · rfl
  split
  · rfl
  split <;> rfl

/-- Any single attempt performs at most one relaunch beyond those of its
restart callback. -/
theorem attempt_count_le (e : AttemptEnv) (q : String) (l : Int) (hl : Bool)
    (r : Unit → SearchResponse × Nat) (hr : ∀ u, (r u).2 = 0) :
    (perform_search_with_browser e q l hl r).2 ≤ 1 := by
  unfold perform_search_with_browser
  split
  · exact Nat.zero_le 1
  split
  · simp [hr ()]
  split
  · exact Nat.zero_le 1
  split
  · exact Nat.zero_le 1
  split
  · simp [hr ()]
  split
  · exact Nat.zero_le 1
  split <;> exact Nat.zero_le 1

/-- When the headless attempt hits a blocked URL (after navigation or after
query execution), it takes the restart branch. -/
theorem attempt_restart_eq (e : AttemptEnv) (q : String) (l : Int)
    (r : Unit → SearchResponse × Nat) (hr : headlessRestarts e = true) :
    perform_search_with_browser e q l true r = ((r ()).1, (r ()).2 + 1) := by
  unfold headlessRestarts navBlocked postBlocked at hr
  unfold perform_search_with_browser
  cases hg : e.gotoOk <;>
    cases hn : is_blocked_page e.navUrl e.navResponseUrl <;>
      cases hx : e.execOk <;>
        cases hp : is_blocked_page e.postQueryUrl none <;>
          simp_all

/-- An attempt on which some internal step fails — and which does not take
the restart branch — returns the degraded response built from exactly one
synthetic result. -/
theorem attempt_degraded (e : AttemptEnv) (q : String) (l : Int) (hl : Bool)
    (r : Unit → SearchResponse × Nat)
    (hnr : hl = true → headlessRestarts e = false)
    (hf : stepFails e hl = true) :
    ∃ msg, (perform_search_with_browser e q l hl r).1.results = [failResult msg] := by
  unfold stepFails passesNav passesPost headlessRestarts navBlocked postBlocked at *
  unfold perform_search_with_browser wait_for_search_results
  cases hl <;>
    cases hg : e.gotoOk <;>
      cases hn : is_blocked_page e.navUrl e.navResponseUrl <;>
        cases hv : e.verifyClears <;>
          cases hx : e.execOk <;>
            cases hp : is_blocked_page e.postQueryUrl none <;>
              cases hv2 : e.verifyClears2 <;>
                cases hrf : e.resultsFound <;>
                  cases hw : is_blocked_page e.waitUrl none <;>
                    simp_all

/-! ### Claim C1 -/

/-- Claim C1: for every top-level search call, the headless-to-headful
relaunch occurs at most once — if a verification page is detected while
headless the orchestrator re-runs the whole sequence once in headful mode,
and no environment whatsoever (in particular no second block during the
headful attempt) ever produces a second relaunch; moreover a headless
navigation landing on a blocked URL produces exactly one relaunch. -/
theorem c1_escalation_at_most_once (env : Bool → AttemptEnv) (q : String)
    (o : CommandOptions) :
    (google_search env q o).2 ≤ 1 ∧
    ((env true).gotoOk = true →
      is_blocked_page (env true).navUrl (env true).navResponseUrl = true →
      (google_search env q o).2 = 1) := by
  have hful : ∀ u : Unit,
      (perform_search_internal 1 env q (pyOrInt o.limit 10) false).2 = 0 := by
    intro u
    unfold perform_search_internal
    exact headful_attempt_count _ _ _ _
  constructor
  · unfold google_search perform_search_internal
    exact attempt_count_le _ _ _ _ _ hful
  · intro hg hb
    have hr : headlessRestarts (env true) = true := by
      unfold headlessRestarts navBlocked
      simp [hg, hb]
    unfold google_search perform_search_internal
    rw [attempt_restart_eq _ _ _ _ hr]
    simpa using hful ()

/-- Claim C1 witness: a navigation landing on a
`google.com/sorry` URL while headless triggers exactly one relaunch. -/
theorem c1_witness :
    (google_search (fun _ => envBlockedNav) "test" {}).2 = 1 :=
  (c1_escalation_at_most_once (fun _ => envBlockedNav) "test" {}).2
    (by decide) (by decide)

/-! ### Claim C3 -/

/-- Claim C3: whenever an internal step of the attempt that produces the
final response fails (navigation, an unresolved headful verification wait,
query execution, or result waiting), the top-level `google_search` does not
raise to its caller — the model is a total function — and returns a
`SearchResponse` whose results are exactly one synthetic `SearchResult`
built by `failResult`, whose title/snippet communicate the failure
reason. -/
theorem c3_step_failures_yield_degraded_response (env : Bool → AttemptEnv)
    (q : String) (o : CommandOptions)
    (h : (headlessRestarts (env true) = false ∧ stepFails (env true) true = true) ∨
         (headlessRestarts (env true) = true ∧ stepFails (env false) false = true)) :
    ∃ msg, (google_search env q o).1.results = [failResult msg] := by
  unfold google_search perform_search_internal
  rcases h with ⟨hnr, hf⟩ | ⟨hr, hf⟩
  · exact attempt_degraded _ q _ true _ (fun _ => hnr) hf
  · rw [attempt_restart_eq _ _ _ _ hr]
    exact attempt_degraded _ q _ false _ (fun hc => absurd hc (by decide)) hf

/-- Claim C3 witness: a navigation timeout yields the degraded
single-synthetic-result response. -/
theorem c3_witness :
    ∃ msg, (google_search (fun _ => envGotoFails) "lean" {}).1.results =
      [failResult msg] :=
  c3_step_failures_yield_degraded_response (fun _ => envGotoFails) "lean" {}
    (Or.inl ⟨by decide, by decide⟩)

/-! ### Claim C7 -/

/-- Claim C7 evaluation at the failing input: while headless, when no
result container appears and the URL inspected during result-waiting is a
verification page, block detection does run (the executor raises its
dedicated verification message), but the orchestrator performs zero
headless→headful relaunches and instead returns the degraded response —
the catch-all `except` of `engine.py` line 266 swallows the dedicated
exception like any other failure, contradicting the claimed (and
intended, per the comment at `search_executor.py` line 217) escalation. -/
theorem c7_wait_stage_block_not_escalated :
    wait_for_search_results envBlockedDuringWait = .error "检测到人机验证页面" ∧
    (google_search (fun _ => envBlockedDuringWait) "test" {}).2 = 0 ∧
    (google_search (fun _ => envBlockedDuringWait) "test" {}).1.results =
      [failResult "检测到人机验证页面"] := by
  refine ⟨rfl, rfl, rfl⟩

/-! ### Extraction invariants

The extraction script maintains `seenUrls` as exactly the set of links
already pushed; every pushed link is non-empty, http-prefixed and fresh.
The lemmas below carry that invariant through both phases. -/

/-- Invariant preservation for the structural phase: if every accumulated
link is recorded in `seen`, the accumulated links are distinct, and each is
a non-empty http link, the same holds at the end of the phase, and `seen`
only grows. -/
theorem extractStructural_inv (limit : Int) (cs : List Candidate)
    (res : List RawResult) (seen : List String)
    (h1 : ∀ r ∈ res, r.link ∈ seen)
    (h2 : (res.map (fun r => r.link)).Nodup)
    (h3 : ∀ r ∈ res, r.link ≠ "" ∧ strStartsWith r.link "http" = true) :
    (∀ r ∈ (extractStructural limit cs res seen).1,
       r.link ∈ (extractStructural limit cs res seen).2) ∧
    ((extractStructural limit cs res seen).1.map (fun r => r.link)).Nodup ∧
    (∀ r ∈ (extractStructural limit cs res seen).1,
       r.link ≠ "" ∧ strStartsWith r.link "http" = true) ∧
    (∀ s ∈ seen, s ∈ (extractStructural limit cs res seen).2) := by
  induction cs generalizing res seen with
  | nil =>
    simp only [extractStructural]
    exact ⟨h1, h2, h3, fun s hs => hs⟩
  | cons c cs ih =>
    simp only [extractStructural]
    split
    · exact ⟨h1, h2, h3, fun s hs => hs⟩
    split
    · exact ih res seen h1 h2 h3
    next title heq =>
      split
      · exact ih res seen h1 h2 h3
      next hguard =>
        push_neg at hguard
        obtain ⟨hne, hsw, hnotseen⟩ := hguard
        have hsw' : strStartsWith c.link "http" = true := by
          cases hval : strStartsWith c.link "http"
          · exact absurd hval hsw
          · rfl
        split
        · exact ih res seen h1 h2 h3
        next htitle =>
          have ha : ∀ r ∈ res ++ [(⟨title, c.link, c.snippet⟩ : RawResult)],
              r.link ∈ c.link :: seen := by
            intro r hr
            rcases List.mem_append.mp hr with h | h
            · exact List.mem_cons_of_mem _ (h1 r h)
            · rw [List.mem_singleton.mp h]
              exact List.mem_cons_self _ _
          have hb : ((res ++ [(⟨title, c.link, c.snippet⟩ : RawResult)]).map
              (fun r => r.link)).Nodup := by
            rw [List.map_append, List.nodup_append]
            refine ⟨h2, List.nodup_singleton _, ?_⟩
            intro a hmem hmem'
            rcases List.mem_map.mp hmem with ⟨r, hr, hrl⟩
            simp only [ List.map_cons, List.map_nil, List.mem_singleton] at hmem'
            exact hnotseen (hmem' ▸ hrl ▸ h1 r hr)
          have hc3 : ∀ r ∈ res ++ [(⟨title, c.link, c.snippet⟩ : RawResult)],
              r.link ≠ "" ∧ strStartsWith r.link "http" = true := by
            intro r hr
            rcases List.mem_append.mp hr with h | h
            · exact h3 r h
            · rw [List.mem_singleton.mp h]
              exact ⟨hne, hsw'⟩
          obtain ⟨i1, i2, i3, i4⟩ :=
            ih (res ++ [(⟨title, c.link, c.snippet⟩ : RawResult)]) (c.link :: seen)
              ha hb hc3
          exact ⟨i1, i2, i3, fun s hs => i4 s (List.mem_cons_of_mem _ hs)⟩

/-- Invariant preservation for the fallback phase: as for the structural
phase, under the additional fact (supplied by the `a[href^='http']` DOM
query) that every candidate anchor's href is http-prefixed. -/
theorem extractFallback_inv (limit : Int) (la : List Anchor) :
    ∀ (res : List RawResult) (seen : List String),
    (∀ a ∈ la, strStartsWith a.href "http" = true) →
    (∀ r ∈ res, r.link ∈ seen) →
    ((res.map (fun r => r.link)).Nodup) →
    (∀ r ∈ res, r.link ≠ "" ∧ strStartsWith r.link "http" = true) →
    (∀ r ∈ (extractFallback limit la res seen).1,
       r.link ∈ (extractFallback limit la res seen).2) ∧
    ((extractFallback limit la res seen).1.map (fun r => r.link)).Nodup ∧
    (∀ r ∈ (extractFallback limit la res seen).1,
       r.link ≠ "" ∧ strStartsWith r.link "http" = true) ∧
    (∀ s ∈ seen, s ∈ (extractFallback limit la res seen).2) := by
  induction la with
  | nil =>
    intro res seen _ h1 h2 h3
    simp only [extractFallback]
    exact ⟨h1, h2, h3, fun s hs => hs⟩
  | cons a la ih =>
    intro res seen hA h1 h2 h3
    have hA' : ∀ x ∈ la, strStartsWith x.href "http" = true :=
      fun x hx => hA x (List.mem_cons_of_mem _ hx)
    have hahead : strStartsWith a.href "http" = true :=
      hA a (List.mem_cons_self _ _)
    simp only [extractFallback]
    split
    · exact ⟨h1, h2, h3, fun s hs => hs⟩
    split
    · exact ih res seen hA' h1 h2 h3
    next hguard =>
      push_neg at hguard
      obtain ⟨hne, hnotseen, _, _, _⟩ := hguard
      split
      · exact ih res seen hA' h1 h2 h3
      next htext =>
        have ha : ∀ r ∈ res ++ [(⟨a.text, a.href, a.ancestorSnippet⟩ : RawResult)],
            r.link ∈ a.href :: seen := by
          intro r hr
          rcases List.mem_append.mp hr with h | h
          · exact List.mem_cons_of_mem _ (h1 r h)
          · rw [List.mem_singleton.mp h]
            exact List.mem_cons_self _ _
        have hb : ((res ++ [(⟨a.text, a.href, a.ancestorSnippet⟩ : RawResult)]).map
            (fun r => r.link)).Nodup := by
          rw [List.map_append, List.nodup_append]
          refine ⟨h2, List.nodup_singleton _, ?_⟩
          intro x hmem hmem'
          rcases List.mem_map.mp hmem with ⟨r, hr, hrl⟩
          simp only [ List.map_cons, List.map_nil, List.mem_singleton] at hmem'
          exact hnotseen (hmem' ▸ hrl ▸ h1 r hr)
        have hc3 : ∀ r ∈ res ++ [(⟨a.text, a.href, a.ancestorSnippet⟩ : RawResult)],
            r.link ≠ "" ∧ strStartsWith r.link "http" = true := by
          intro r hr
          rcases List.mem_append.mp hr with h | h
          · exact h3 r h
          · rw [List.mem_singleton.mp h]
            exact ⟨hne, hahead⟩
        obtain ⟨i1, i2, i3, i4⟩ :=
          ih (res ++ [(⟨a.text, a.href, a.ancestorSnippet⟩ : RawResult)]) (a.href :: seen)
            hA' ha hb hc3
        exact ⟨i1, i2, i3, fun s hs => i4 s (List.mem_cons_of_mem _ hs)⟩

/-- JS `slice(0, n)` yields a sublist. -/
theorem jsSliceTo_sublist (l : List α) (n : Int) : jsSliceTo l n <+ l := by
  unfold jsSliceTo
  split <;> exact List.take_sublist _ _

/-- For a non-negative bound, `slice(0, n)` keeps at most `n` elements. -/
theorem jsSliceTo_length_le (l : List α) (n : Int) (h : 0 ≤ n) :
    ((jsSliceTo l n).length : Int) ≤ n := by
  unfold jsSliceTo
  rw [if_pos h]
  have h1 : (l.take n.toNat).length ≤ n.toNat := by
    simp [List.length_take]
  omega

/-- Both phases together keep every link non-empty and http-prefixed, and
all links pairwise distinct. -/
theorem extractCombined_inv (page : PageModel) (limit : Int) :
    (∀ r ∈ extractCombined page limit,
       r.link ≠ "" ∧ strStartsWith r.link "http" = true) ∧
    ((extractCombined page limit).map (fun r => r.link)).Nodup := by
  obtain ⟨s1, s2, s3, _⟩ :=
    extractStructural_inv limit page.containers [] []
      (by intro r hr; cases hr) (by simp) (by intro r hr; cases hr)
  unfold extractCombined extractPhase1
  split
  · obtain ⟨_, f2, f3, _⟩ :=
      extractFallback_inv limit
        (page.anchors.filter (fun a => strStartsWith a.href "http"))
        (extractStructural limit page.containers [] []).1
        (extractStructural limit page.containers [] []).2
        (fun a ha => (List.mem_filter.mp ha).2) s1 s2 s3
    exact ⟨f3, f2⟩
  · exact ⟨s3, s2⟩

/-- The extracted result set has only non-empty, http-prefixed, pairwise
distinct links. -/
theorem extract_results_inv (page : PageModel) (limit : Int) :
    (∀ r ∈ extract_search_results page limit,
       r.link ≠ "" ∧ strStartsWith r.link "http" = true) ∧
    ((extract_search_results page limit).map (fun r => r.link)).Nodup := by
  obtain ⟨hP, hN⟩ := extractCombined_inv page limit
  constructor
  · intro r hr
    exact hP r ((jsSliceTo_sublist _ _).subset hr)
  · exact hN.sublist ((jsSliceTo_sublist (extractCombined page limit) limit).map _)

/-- Converting raw records to `SearchResult`s preserves the link column. -/
theorem convert_map_link (raw : List RawResult) :
    (convert_to_search_results raw).map (fun r => r.link) =
      raw.map (fun r => r.link) := by
  simp [convert_to_search_results, List.map_map]

/-! ### Discovery order

The records kept by each phase form an order-preserving selection
(a `List.Sublist`) of the records derivable from the page in document
order. -/

/-- The structural phase appends, in order, a sublist of the records
derived from the remaining containers. -/
theorem extractStructural_sublist (limit : Int) (cs : List Candidate)
    (res : List RawResult) (seen : List String) :
    ∃ t, (extractStructural limit cs res seen).1 = res ++ t ∧
      t <+ cs.filterMap (fun c => c.titleElem.map (fun ti =>
        ({ title := ti, link := c.link, snippet := c.snippet } : RawResult))) := by
  induction cs generalizing res seen with
  | nil =>
    exact ⟨[], by simp [extractStructural], List.nil_sublist _⟩
  | cons c cs ih =>
    simp only [extractStructural]
    split
    · exact ⟨[], by simp, List.nil_sublist _⟩
    split
    next heq =>
      obtain ⟨t, ht, hs⟩ := ih res seen
      exact ⟨t, ht, by simpa [ List.filterMap_cons, heq] using hs⟩
    next title heq =>
      split
      · obtain ⟨t, ht, hs⟩ := ih res seen
        exact ⟨t, ht, by simpa [ List.filterMap_cons, heq] using hs.cons _⟩
      split
      · obtain ⟨t, ht, hs⟩ := ih res seen
        exact ⟨t, ht, by simpa [ List.filterMap_cons, heq] using hs.cons _⟩
      · obtain ⟨t, ht, hs⟩ :=
          ih (res ++ [(⟨title, c.link, c.snippet⟩ : RawResult)]) (c.link :: seen)
        refine ⟨(⟨title, c.link, c.snippet⟩ : RawResult) :: t, ?_, ?_⟩
        · rw [ht, List.append_assoc]
          rfl
        · simpa [ List.filterMap_cons, heq] using
            hs.cons₂ (⟨title, c.link, c.snippet⟩ : RawResult)

/-- The fallback phase appends, in order, a sublist of the records derived
from the remaining anchors. -/
theorem extractFallback_sublist (limit : Int) (la : List Anchor)
    (res : List RawResult) (seen : List String) :
    ∃ t, (extractFallback limit la res seen).1 = res ++ t ∧
      t <+ la.map (fun a =>
        ({ title := a.text, link := a.href, snippet := a.ancestorSnippet } : RawResult)) := by
  induction la generalizing res seen with
  | nil =>
    exact ⟨[], by simp [extractFallback], List.nil_sublist _⟩
  | cons a la ih =>
    simp only [extractFallback]
    split
    · exact ⟨[], by simp, List.nil_sublist _⟩
    split
    · obtain ⟨t, ht, hs⟩ := ih res seen
      exact ⟨t, ht, by simpa [ List.map_cons] using hs.cons _⟩
    split
    · obtain ⟨t, ht, hs⟩ := ih res seen
      exact ⟨t, ht, by simpa [ List.map_cons] using hs.cons _⟩
    · obtain ⟨t, ht, hs⟩ :=
        ih (res ++ [(⟨a.text, a.href, a.ancestorSnippet⟩ : RawResult)]) (a.href :: seen)
      refine ⟨(⟨a.text, a.href, a.ancestorSnippet⟩ : RawResult) :: t, ?_, ?_⟩
      · rw [ht, List.append_assoc]
        rfl
      · simpa [ List.map_cons] using
          hs.cons₂ (⟨a.text, a.href, a.ancestorSnippet⟩ : RawResult)

/-- The extraction output is an order-preserving selection of the page's
records in discovery order. -/
theorem extract_sublist_discovered (page : PageModel) (limit : Int) :
    extract_search_results page limit <+ discoveredRecords page := by
  have hmain : extractCombined page limit <+ discoveredRecords page := by
    unfold extractCombined extractPhase1 discoveredRecords
    obtain ⟨t1, h1, hs1⟩ := extractStructural_sublist limit page.containers [] []
    split
    · obtain ⟨t2, h2, hs2⟩ :=
        extractFallback_sublist limit
          (page.anchors.filter (fun a => strStartsWith a.href "http"))
          (extractStructural limit page.containers [] []).1
          (extractStructural limit page.containers [] []).2
      rw [h2, h1]
      simp only [ List.nil_append]
      exact List.Sublist.append hs1 hs2
    · rw [h1]
      simp only [ List.nil_append]
      exact hs1.trans (List.sublist_append_left _ _)
  exact (jsSliceTo_sublist _ _).trans hmain

/-! ### Response-shape dichotomy

Every attempt either restarts (headless only), or returns the degraded
single-synthetic-result response, or returns the conversion of the
extraction output; hence every top-level response is of one of the last
two shapes. -/

/-- Shape of a headful attempt. -/
theorem headful_attempt_shape (e : AttemptEnv) (q : String) (l : Int)
    (r : Unit → SearchResponse × Nat) :
    (∃ msg, (perform_search_with_browser e q l false r).1.results = [failResult msg]) ∨
    (perform_search_with_browser e q l false r).1.results =
      convert_to_search_results (extract_search_results e.page l) := by
  unfold perform_search_with_browser
  simp only [ Bool.and_false, Bool.false_eq_true, if_false]
  split
  · exact Or.inl ⟨_, rfl⟩
  split
  · exact Or.inl ⟨_, rfl⟩
  split
  · exact Or.inl ⟨_, rfl⟩
  split
  · exact Or.inl ⟨_, rfl⟩
  split
  · exact Or.inl ⟨_, rfl⟩
  · exact Or.inr rfl

/-- Shape of a headless attempt. -/
theorem headless_attempt_shape (e : AttemptEnv) (q : String) (l : Int)
    (r : Unit → SearchResponse × Nat) :
    perform_search_with_browser e q l true r = ((r ()).1, (r ()).2 + 1) ∨
    (∃ msg, (perform_search_with_browser e q l true r).1.results = [failResult msg]) ∨
    (perform_search_with_browser e q l true r).1.results =
      convert_to_search_results (extract_search_results e.page l) := by
  unfold perform_search_with_browser
  split
  · exact Or.inr (Or.inl ⟨_, rfl⟩)
  split
  · exact Or.inl rfl
  split
  · exact Or.inr (Or.inl ⟨_, rfl⟩)
  split
  · exact Or.inr (Or.inl ⟨_, rfl⟩)
  split
  · exact Or.inl rfl
  split
  · exact Or.inr (Or.inl ⟨_, rfl⟩)
  split
  · exact Or.inr (Or.inl ⟨_, rfl⟩)
  · exact Or.inr (Or.inr rfl)

/-- Every top-level response is either the degraded shape or the converted
extraction output of the attempt that produced it. -/
theorem google_search_shape (env : Bool → AttemptEnv) (q : String)
    (o : CommandOptions) :
    (∃ msg, (google_search env q o).1.results = [failResult msg]) ∨
    (∃ b, (google_search env q o).1.results =
      convert_to_search_results
        (extract_search_results (env b).page (pyOrInt o.limit 10))) := by
  have hgoal : google_search env q o =
      perform_search_with_browser (env true) q (pyOrInt o.limit 10) true
        (fun _ => perform_search_internal 1 env q (pyOrInt o.limit 10) false) := rfl
  have hinner : perform_search_internal 1 env q (pyOrInt o.limit 10) false =
      perform_search_with_browser (env false) q (pyOrInt o.limit 10) false
        (fun _ => perform_search_internal 0 env q (pyOrInt o.limit 10) false) := rfl
  rw [hgoal]
  rcases headless_attempt_shape (env true) q (pyOrInt o.limit 10)
      (fun _ => perform_search_internal 1 env q (pyOrInt o.limit 10) false) with
    h | ⟨msg, hmsg⟩ | h
  · rw [h]
    rcases headful_attempt_shape (env false) q (pyOrInt o.limit 10)
        (fun _ => perform_search_internal 0 env q (pyOrInt o.limit 10) false) with
      ⟨msg, hmsg⟩ | h2
    · refine Or.inl ⟨msg, ?_⟩
      rw [hinner]
      exact hmsg
    · refine Or.inr ⟨false, ?_⟩
      rw [hinner]
      exact h2
  · exact Or.inl ⟨msg, hmsg⟩
  · exact Or.inr ⟨true, h⟩

/-! ### Claim C4 -/

/-- Claim C4 (amended): within every result set produced by extraction —
hence in every successful response, whose results are exactly the converted
extraction output — each link is non-empty and http-prefixed and no two
results share a link; the degraded failure response instead carries a
single synthetic result with an empty link. -/
theorem c4_extraction_links_nonempty_http_unique :
    (∀ (page : PageModel) (limit : Int),
      (∀ r ∈ convert_to_search_results (extract_search_results page limit),
         r.link ≠ "" ∧ strStartsWith r.link "http" = true) ∧
      ((convert_to_search_results (extract_search_results page limit)).map
        (fun r => r.link)).Nodup) ∧
    (∀ (env : Bool → AttemptEnv) (q : String) (o : CommandOptions),
      (∃ msg, (google_search env q o).1.results = [failResult msg]) ∨
      (∃ b, (google_search env q o).1.results =
        convert_to_search_results
          (extract_search_results (env b).page (pyOrInt o.limit 10)))) := by
  constructor
  · intro page limit
    constructor
    · intro r hr
      rcases List.mem_map.mp (by simpa [convert_to_search_results] using hr)
        with ⟨r0, hr0, hr0e⟩
      rw [← hr0e]
      exact (extract_results_inv page limit).1 r0 hr0
    · rw [convert_map_link]
      exact (extract_results_inv page limit).2
  · exact google_search_shape

/-- Claim C4 counterexample: the claim as stated — every result link of
every returned `SearchResponse` is non-empty and http-prefixed — fails on
the degraded response: a navigation failure yields a response whose single
result has the empty link. -/
theorem c4_counterexample :
    ((google_search (fun _ => envGotoFails2) "rust" {}).1.results.map
      (fun r => r.link)) = [""] := rfl

/-- Claim C4 witness: the amended invariants at a concrete page. -/
theorem c4_witness :
    ((convert_to_search_results (extract_search_results pageOneResult 10)).map
      (fun r => r.link)).Nodup :=
  (c4_extraction_links_nonempty_http_unique.1 pageOneResult 10).2

/-! ### Claim C5 -/

/-- Claim C5 (amended): for every request whose `limit` is absent or
positive, the returned response contains at most the effective limit many
results — which equals `request.limit` itself whenever that is positive —
and extraction returns results in discovery order (its output is an
order-preserving selection of the page's records). -/
theorem c5_limit_bound_and_discovery_order (env : Bool → AttemptEnv)
    (q : String) (o : CommandOptions)
    (h : o.limit = none ∨ ∃ n : Int, 0 < n ∧ o.limit = some n) :
    ((google_search env q o).1.results.length : Int) ≤ pyOrInt o.limit 10 ∧
    (∀ n : Int, 0 < n → o.limit = some n → pyOrInt o.limit 10 = n) ∧
    (∀ (page : PageModel) (l : Int),
      extract_search_results page l <+ discoveredRecords page) := by
  have hsome : ∀ (n : Int), n ≠ 0 → pyOrInt (some n) 10 = n := by
    intro n hn
    simp [pyOrInt, hn]
  have heff : 1 ≤ pyOrInt o.limit 10 := by
    rcases h with h | ⟨n, hn, h⟩
    · rw [h]
      norm_num [pyOrInt]
    · rw [h, hsome n (by omega)]
      omega
  refine ⟨?_, ?_, ?_⟩
  · rcases google_search_shape env q o with ⟨msg, hm⟩ | ⟨b, hb⟩
    · rw [hm]
      simpa using heff
    · rw [hb]
      have hlen : (convert_to_search_results
          (extract_search_results (env b).page (pyOrInt o.limit 10))).length =
          (extract_search_results (env b).page (pyOrInt o.limit 10)).length := by
        simp [convert_to_search_results]
      rw [hlen]
      unfold extract_search_results
      exact jsSliceTo_length_le _ _ (by omega)
  · intro n hn he
    rw [he]
    exact hsome n (by omega)
  · intro page l
    exact extract_sublist_discovered page l

/-- Claim C5 counterexample: the claim as stated fails for a request with
`limit = 0` — the code replaces the falsy 0 by the default 10 and a
well-formed page then yields 2 results, violating
`len(response.results) <= request.limit`. -/
theorem c5_counterexample :
    ¬ (((google_search (fun _ => envAllOk) "rust ownership model"
        { limit := some 0 }).1.results.length : Int) ≤ 0) := by
  have h : (google_search (fun _ => envAllOk) "rust ownership model"
      { limit := some 0 }).1.results.length = 2 := rfl
  rw [h]
  omega

/-- Claim C5 witness: the amended bound at a concrete positive limit. -/
theorem c5_witness :
    ((google_search (fun _ => envAllOk) "rust ownership model"
        { limit := some 5 }).1.results.length : Int) ≤ 5 :=
  (c5_limit_bound_and_discovery_order (fun _ => envAllOk) "rust ownership model"
    { limit := some 5 } (Or.inr ⟨5, by norm_num, rfl⟩)).1

end WebSearch
